import Mathlib

/-!
Shallow embedding of the `github-app-auth` crate (`src/lib.rs`).

The crate's external collaborators (the system clock, the `jsonwebtoken`
signing primitive, the `reqwest` HTTP transport) are modelled as oracles:
each `SystemTime::now()` call becomes an explicit `SystemTime` argument in
program order, and signing / HTTP are fields of an `Env` record.  Every
operation additionally returns the list of externally visible `Event`s it
performed (sign calls, HTTP calls, the `info!` log line), so that claims
about "how many exchanges happened" are statable.
-/

namespace GithubAppAuth

/-- Model of `std::time::Duration`: a non-negative span in nanoseconds. -/
structure Duration where
  nanos : Nat
deriving DecidableEq, Repr

/-- Model of `Duration::as_secs`: whole seconds, fractional part truncated. -/
def Duration.as_secs (d : Duration) : Nat :=
  d.nanos / 1000000000

/-- Model of `std::time::SystemTime`: a point in time, in nanoseconds
relative to the Unix epoch (negative means before the epoch). -/
structure SystemTime where
  nanos : Int
deriving DecidableEq, Repr

/-- Model of `std::time::SystemTimeError`, which carries the positive
duration by which `earlier` exceeds `self` in a failed `duration_since`. -/
structure SystemTimeError where
  duration : Duration
deriving DecidableEq, Repr

/-- Model of `std::time::UNIX_EPOCH`. -/
def UNIX_EPOCH : SystemTime := ⟨0⟩

/-- Model of `SystemTime::duration_since`: the span from `earlier` to `t`,
or an error if `t` is earlier than `earlier`. -/
def SystemTime.duration_since (t earlier : SystemTime) :
    Except SystemTimeError Duration :=
  if earlier.nanos ≤ t.nanos then
    .ok ⟨(t.nanos - earlier.nanos).toNat⟩
  else
    .error ⟨⟨(earlier.nanos - t.nanos).toNat⟩⟩

/-- Model of `jsonwebtoken::errors::Error` (opaque payload). -/
structure JsonwebtokenError where
  msg : String
deriving DecidableEq, Repr

/-- Model of `reqwest::Error`: a transport failure, a non-success status
produced by `error_for_status`, or a body-decoding failure from `.json()`. -/
inductive ReqwestErrorKind where
  | transport (msg : String)
  | status (code : Nat)
  | decode (msg : String)
deriving DecidableEq, Repr

/-- Model of the crate's `AuthError` enum (src/lib.rs lines 38-55). -/
inductive AuthError where
  | JwtError (e : JsonwebtokenError)
  | InvalidHeaderValue
  | ReqwestError (e : ReqwestErrorKind)
  | TimeError (e : SystemTimeError)
deriving DecidableEq, Repr

/-- Model of the crate's `GithubAuthParams` struct (src/lib.rs lines 182-213).
`private_key` is an opaque byte sequence. -/
structure GithubAuthParams where
  user_agent : String
  private_key : List Nat
  installation_id : Nat
  app_id : Nat
deriving DecidableEq, Repr

/-- Model of the crate's `JwtClaims` struct (src/lib.rs lines 57-65). -/
structure JwtClaims where
  iat : Nat
  exp : Nat
  iss : Nat
deriving DecidableEq, Repr

/-- Model of `JwtClaims::new` (src/lib.rs lines 67-81).  The Rust code reads
`SystemTime::now()` itself; here the read's result is the `now` argument.
`?` on `duration_since` converts the error into `AuthError::TimeError`. -/
def JwtClaims.new (params : GithubAuthParams) (now : SystemTime) :
    Except AuthError JwtClaims :=
  match now.duration_since UNIX_EPOCH with
  | .error e => .error (.TimeError e)
  | .ok d =>
    let secs := d.as_secs
    .ok { iat := secs, exp := secs + 60, iss := params.app_id }

/-- Model of `jsonwebtoken::Algorithm` (only the variants the crate can
select matter; `HS256` is the default, `RS256` is what the crate sets). -/
inductive Algorithm where
  | HS256
  | RS256
deriving DecidableEq, Repr

/-- Model of `jsonwebtoken::Header` (the `alg` field is the only one the
crate touches; `typ` is kept for the default value's shape). -/
structure JwtHeader where
  typ : Option String
  alg : Algorithm
deriving DecidableEq, Repr

/-- Model of `jsonwebtoken::Header::default()`: `typ = "JWT"`, `alg = HS256`. -/
def JwtHeader.default : JwtHeader := ⟨some "JWT", .HS256⟩

/-- Model of `reqwest::blocking::Client`: the only state the crate
configures is the user agent. -/
structure Client where
  user_agent : String
deriving DecidableEq, Repr

/-- Model of the crate's `RawInstallationToken` struct (src/lib.rs lines
86-89); `expires_at` (a `DateTime<Utc>`) is modelled as a Unix timestamp. -/
structure RawInstallationToken where
  token : String
  expires_at : Int
deriving DecidableEq, Repr

/-- The HTTP request `get_installation_token` issues: a POST to the
access-tokens URL with a bearer credential and an Accept header. -/
structure HttpRequest where
  client : Client
  method : String
  url : String
  bearer : String
  accept : String
deriving DecidableEq, Repr

/-- What the transport delivers for one request: a status code and the
result of deserializing the body as a `RawInstallationToken`. -/
structure HttpResponse where
  status : Nat
  body_json : Except ReqwestErrorKind RawInstallationToken

/-- Externally visible actions of the crate, in program order. -/
inductive Event where
  | signCall (hd : JwtHeader) (claims : JwtClaims) (key : List Nat)
  | httpCall (req : HttpRequest)
  | infoLog (msg : String)
deriving DecidableEq, Repr

/-- The oracle environment: how the external collaborators respond. -/
structure Env where
  buildClient : String → Except ReqwestErrorKind Client
  sign : JwtHeader → JwtClaims → List Nat → Except JsonwebtokenError String
  http : HttpRequest → Except ReqwestErrorKind HttpResponse

/-- The `MACHINE_MAN_PREVIEW` media type constant (src/lib.rs lines 34-35). -/
def MACHINE_MAN_PREVIEW : String :=
  "application/vnd.github.machine-man-preview+json"

/-- Model of `get_installation_token` (src/lib.rs lines 96-118): build the
claims, sign them with `RS256` and the caller's private key, POST the JWT
as a bearer credential, fail on non-success status, parse the body.  The
`now` argument is the result of the `SystemTime::now()` read inside
`JwtClaims::new`.  Also returns the trace of external events performed. -/
def get_installation_token (env : Env) (client : Client) (now : SystemTime)
    (params : GithubAuthParams) :
    Except AuthError RawInstallationToken × List Event :=
  match JwtClaims.new params now with
  | .error e => (.error e, [])
  | .ok claims =>
    let hd : JwtHeader := { JwtHeader.default with alg := .RS256 }
    match env.sign hd claims params.private_key with
    | .error e => (.error (.JwtError e), [.signCall hd claims params.private_key])
    | .ok jwt =>
      let url := "https://api.github.com/app/installations/"
        ++ toString params.installation_id ++ "/access_tokens"
      let req : HttpRequest :=
        { client := client, method := "POST", url := url, bearer := jwt,
          accept := MACHINE_MAN_PREVIEW }
      let events := [Event.signCall hd claims params.private_key, Event.httpCall req]
      match env.http req with
      | .error e => (.error (.ReqwestError e), events)
      | .ok resp =>
        if 400 ≤ resp.status ∧ resp.status ≤ 599 then
          (.error (.ReqwestError (.status resp.status)), events)
        else
          match resp.body_json with
          | .error e => (.error (.ReqwestError e), events)
          | .ok raw => (.ok raw, events)

/-- Model of the crate's `InstallationToken` struct (src/lib.rs lines
122-132): the shared client, the current token, its local fetch time, and
the construction parameters. -/
structure InstallationToken where
  client : Client
  token : String
  fetch_time : SystemTime
  params : GithubAuthParams
deriving DecidableEq, Repr

/-- Model of `InstallationToken::new` (src/lib.rs lines 137-150): build the
client, perform one full exchange, and populate the state.  `nowClaims` is
the clock read inside `JwtClaims::new`; `nowFetch` is the later
`SystemTime::now()` stored as `fetch_time`. -/
def InstallationToken.new (env : Env) (nowClaims nowFetch : SystemTime)
    (params : GithubAuthParams) :
    Except AuthError InstallationToken × List Event :=
  match env.buildClient params.user_agent with
  | .error e => (.error (.ReqwestError e), [])
  | .ok client =>
    match get_installation_token env client nowClaims params with
    | (.error e, tr) => (.error e, tr)
    | (.ok raw, tr) =>
      (.ok { client := client, token := raw.token, fetch_time := nowFetch,
             params := params }, tr)

/-- Model of `InstallationToken::refresh` (src/lib.rs lines 164-176):
compute the elapsed time since `fetch_time`; if its whole-second count
exceeds `55 * 60`, log, run one exchange, and on success store the new
token and a fresh `fetch_time`.  `nowElapsed`, `nowClaims`, `nowFetch` are
the three `SystemTime::now()` reads in program order (the last two happen
only on the refresh path).  Returns the result, the final state, and the
event trace. -/
def InstallationToken.refresh (st : InstallationToken) (env : Env)
    (nowElapsed nowClaims nowFetch : SystemTime) :
    Except AuthError Unit × InstallationToken × List Event :=
  match nowElapsed.duration_since st.fetch_time with
  | .error e => (.error (.TimeError e), st, [])
  | .ok elapsed =>
    if elapsed.as_secs > 55 * 60 then
      match get_installation_token env st.client nowClaims st.params with
      | (.error e, tr) =>
        (.error e, st, Event.infoLog "refreshing installation token" :: tr)
      | (.ok raw, tr) =>
        (.ok (), { st with token := raw.token, fetch_time := nowFetch },
          Event.infoLog "refreshing installation token" :: tr)
    else
      (.ok (), st, [])

/-- Model of the byte-validity predicate of `http::HeaderValue` (used by
`val.parse()` in `header`): a byte is legal in a header value iff it is
`>= 32` and `!= 127`, or is a horizontal tab.  Bytes `>= 128` (every byte
of a multi-byte UTF-8 character) are legal opaque text, so checking the
scalar values of a string's characters agrees with the byte-level check. -/
def header_char_valid (c : Char) : Bool :=
  (decide (32 ≤ c.toNat) && decide (c.toNat ≠ 127)) || decide (c.toNat = 9)

/-- A string parses as an `http::HeaderValue` iff all its characters are
legal header-value text. -/
def header_value_valid (s : String) : Bool :=
  s.data.all header_char_valid

/-- Model of `InstallationToken::header` (src/lib.rs lines 156-162):
refresh if needed, then build a single-entry header map
`Authorization: token <token>` from the current token; fail with
`InvalidHeaderValue` if the value does not parse as a header value.
The `HeaderMap` is modelled as a key-value list. -/
def InstallationToken.header (st : InstallationToken) (env : Env)
    (nowElapsed nowClaims nowFetch : SystemTime) :
    Except AuthError (List (String × String)) × InstallationToken × List Event :=
  match st.refresh env nowElapsed nowClaims nowFetch with
  | (.error e, st', tr) => (.error e, st', tr)
  | (.ok _, st', tr) =>
    let val := "token " ++ st'.token
    if header_value_valid val then
      (.ok [("Authorization", val)], st', tr)
    else
      (.error .InvalidHeaderValue, st', tr)

/-- Concrete parameters used to instantiate the theorems below. -/
def paramsW : GithubAuthParams :=
  { user_agent := "my-agent", private_key := [1, 2, 3],
    installation_id := 5678, app_id := 1234 }

/-- Concrete client matching `paramsW`. -/
def clientW : Client := ⟨"my-agent"⟩

/-- An environment in which every collaborator succeeds and the exchange
returns token `"T2"`. -/
def envOk : Env :=
  { buildClient := fun ua => .ok ⟨ua⟩
    sign := fun _ _ _ => .ok "signed-jwt"
    http := fun _ => .ok ⟨201, .ok ⟨"T2", 1468275250⟩⟩ }

/-- An environment in which signing fails. -/
def envSignFail : Env :=
  { envOk with sign := fun _ _ _ => .error ⟨"bad key"⟩ }

/-- An environment in which the exchange succeeds but returns a token
containing a line feed, which is not legal header-value text. -/
def envBadToken : Env :=
  { envOk with http := fun _ => .ok ⟨201, .ok ⟨"T2\nX", 1468275250⟩⟩ }

/-- A concrete manager state holding token `"T1"` fetched at the epoch. -/
def stW : InstallationToken :=
  { client := clientW, token := "T1", fetch_time := ⟨0⟩, params := paramsW }

/-- A concrete manager state whose stored token contains a line feed. -/
def stBad : InstallationToken :=
  { client := clientW, token := "bad\ntoken", fetch_time := ⟨0⟩, params := paramsW }

/-- Whether an event is a network exchange (an HTTP call). -/
def Event.isHttpCall : Event → Bool
  | .httpCall _ => true
  | _ => false

/-- Number of network exchanges in a trace. -/
def httpCount (tr : List Event) : Nat :=
  (tr.filter Event.isHttpCall).length

/-- A successful exchange performs exactly one HTTP call. -/
theorem get_installation_token_ok_httpCount (env : Env) (client : Client)
    (now : SystemTime) (params : GithubAuthParams)
    (raw : RawInstallationToken) (tr : List Event)
    (h : get_installation_token env client now params = (.ok raw, tr)) :
    httpCount tr = 1 := by
  unfold get_installation_token at h
  repeat' (first | split at h | (dsimp only [] at h))
  all_goals rw [Prod.mk.injEq] at h
  all_goals obtain ⟨h1, h2⟩ := h
  all_goals subst h2
  all_goals simp_all [httpCount, Event.isHttpCall]

/-- When the elapsed whole-second count is at most 3300, `refresh` is a
no-op: success, unchanged state, empty trace. -/
theorem refresh_fresh (st : InstallationToken) (env : Env)
    (n1 n2 n3 : SystemTime) (d : Duration)
    (h1 : n1.duration_since st.fetch_time = .ok d)
    (h2 : d.as_secs ≤ 3300) :
    st.refresh env n1 n2 n3 = (.ok (), st, []) := by
  unfold InstallationToken.refresh
  rw [h1]
  dsimp only []
  rw [if_neg (by omega)]

/-- When stale and the exchange succeeds, `refresh` stores the new token
and the fresh fetch time, logs, and returns the exchange's trace. -/
theorem refresh_stale_ok (st : InstallationToken) (env : Env)
    (n1 n2 n3 : SystemTime) (d : Duration) (raw : RawInstallationToken)
    (tr : List Event)
    (h1 : n1.duration_since st.fetch_time = .ok d)
    (h2 : 3300 < d.as_secs)
    (h3 : get_installation_token env st.client n2 st.params = (.ok raw, tr)) :
    st.refresh env n1 n2 n3 =
      (.ok (), { st with token := raw.token, fetch_time := n3 },
        Event.infoLog "refreshing installation token" :: tr) := by
  unfold InstallationToken.refresh
  rw [h1]
  dsimp only []
  rw [if_pos (by omega)]
  rw [h3]

/-- When stale and the exchange fails, `refresh` returns the error and
leaves the state unchanged. -/
theorem refresh_stale_err (st : InstallationToken) (env : Env)
    (n1 n2 n3 : SystemTime) (d : Duration) (e : AuthError) (tr : List Event)
    (h1 : n1.duration_since st.fetch_time = .ok d)
    (h2 : 3300 < d.as_secs)
    (h3 : get_installation_token env st.client n2 st.params = (.error e, tr)) :
    st.refresh env n1 n2 n3 =
      (.error e, st, Event.infoLog "refreshing installation token" :: tr) := by
  unfold InstallationToken.refresh
  rw [h1]
  dsimp only []
  rw [if_pos (by omega)]
  rw [h3]

/-- When the clock read fails, `refresh` returns a `TimeError` and leaves
the state unchanged. -/
theorem refresh_time_err (st : InstallationToken) (env : Env)
    (n1 n2 n3 : SystemTime) (e : SystemTimeError)
    (h1 : n1.duration_since st.fetch_time = .error e) :
    st.refresh env n1 n2 n3 = (.error (.TimeError e), st, []) := by
  unfold InstallationToken.refresh
  rw [h1]

/-- The state `header` ends in is exactly the state `refresh` ends in. -/
theorem header_state_eq (st : InstallationToken) (env : Env)
    (n1 n2 n3 : SystemTime) :
    (st.header env n1 n2 n3).2.1 = (st.refresh env n1 n2 n3).2.1 := by
  unfold InstallationToken.header
  repeat' (first | split | (dsimp only []))
  all_goals simp_all

/-- The trace `header` produces is exactly the trace `refresh` produces. -/
theorem header_trace_eq (st : InstallationToken) (env : Env)
    (n1 n2 n3 : SystemTime) :
    (st.header env n1 n2 n3).2.2 = (st.refresh env n1 n2 n3).2.2 := by
  unfold InstallationToken.header
  repeat' (first | split | (dsimp only []))
  all_goals simp_all

/-- C1: when the elapsed whole-second count since the last fetch exceeds
55 minutes (3300 s; in particular an elapsed time of 3301 seconds), a
credential request (`header`) performs exactly one token exchange, and
after a successful exchange the stored fetch timestamp is the new current
time and the stored token is the newly returned token. -/
theorem claim_c1 (env : Env) (st : InstallationToken)
    (n1 n2 n3 : SystemTime) (d : Duration) (raw : RawInstallationToken)
    (tr : List Event)
    (h1 : n1.duration_since st.fetch_time = .ok d)
    (h2 : 3300 < d.as_secs)
    (h3 : get_installation_token env st.client n2 st.params = (.ok raw, tr)) :
    (st.header env n1 n2 n3).2.1.token = raw.token ∧
    (st.header env n1 n2 n3).2.1.fetch_time = n3 ∧
    httpCount (st.header env n1 n2 n3).2.2 = 1 := by
  have hr := refresh_stale_ok st env n1 n2 n3 d raw tr h1 h2 h3
  have hs := header_state_eq st env n1 n2 n3
  have ht := header_trace_eq st env n1 n2 n3
  rw [hr] at hs ht
  refine ⟨by rw [hs], by rw [hs], ?_⟩
  rw [ht]
  have hc := get_installation_token_ok_httpCount env st.client n2 st.params raw tr h3
  simp only [httpCount, List.filter] at hc ⊢
  simpa [Event.isHttpCall] using hc

/-- C1 witness: a concrete stale manager (elapsed 3301 s) against a
succeeding environment. -/
theorem claim_c1_witness :
    (stW.header envOk ⟨3301000000000⟩ ⟨3301000000000⟩ ⟨3301500000000⟩).2.1.token = "T2" ∧
    (stW.header envOk ⟨3301000000000⟩ ⟨3301000000000⟩ ⟨3301500000000⟩).2.1.fetch_time =
      ⟨3301500000000⟩ ∧
    httpCount (stW.header envOk ⟨3301000000000⟩ ⟨3301000000000⟩ ⟨3301500000000⟩).2.2 = 1 :=
  claim_c1 envOk stW ⟨3301000000000⟩ ⟨3301000000000⟩ ⟨3301500000000⟩
    ⟨3301000000000⟩ ⟨"T2", 1468275250⟩
    (get_installation_token envOk stW.client ⟨3301000000000⟩ stW.params).2
    rfl (by decide) rfl

/-- C2 counterexample: a fresh manager (elapsed 0 s) whose stored token
contains a line feed performs zero exchanges and leaves state unchanged,
but returns a header-encoding error instead of a header built from the
stored token. -/
theorem claim_c2_counterexample :
    (stBad.header envOk ⟨0⟩ ⟨0⟩ ⟨0⟩).1 = .error AuthError.InvalidHeaderValue ∧
    httpCount (stBad.header envOk ⟨0⟩ ⟨0⟩ ⟨0⟩).2.2 = 0 ∧
    (stBad.header envOk ⟨0⟩ ⟨0⟩ ⟨0⟩).2.1 = stBad := by
  refine ⟨rfl, rfl, rfl⟩

/-- C2 (amended): when the elapsed whole-second count since the last fetch
is at most 55 minutes (3300 s, including exactly 3300 s), a credential
request performs zero network exchanges, leaves the stored token and fetch
timestamp unchanged, and — provided the stored token is legal header-value
text — returns a header built from the previously stored token (otherwise
it returns a header-encoding error, still with no exchange and unchanged
state). -/
theorem claim_c2 (env : Env) (st : InstallationToken)
    (n1 n2 n3 : SystemTime) (d : Duration)
    (h1 : n1.duration_since st.fetch_time = .ok d)
    (h2 : d.as_secs ≤ 3300) :
    httpCount (st.header env n1 n2 n3).2.2 = 0 ∧
    (st.header env n1 n2 n3).2.1 = st ∧
    (header_value_valid ("token " ++ st.token) = true →
      (st.header env n1 n2 n3).1 = .ok [("Authorization", "token " ++ st.token)]) ∧
    (header_value_valid ("token " ++ st.token) = false →
      (st.header env n1 n2 n3).1 = .error .InvalidHeaderValue) := by
  have hr := refresh_fresh st env n1 n2 n3 d h1 h2
  refine ⟨?_, ?_, ?_, ?_⟩
  · rw [header_trace_eq, hr]
    rfl
  · rw [header_state_eq, hr]
  · intro hv
    unfold InstallationToken.header
    rw [hr]
    dsimp only []
    rw [if_pos hv]
  · intro hv
    unfold InstallationToken.header
    rw [hr]
    dsimp only []
    rw [if_neg (by simp [hv])]

/-- C2 witness: a concrete manager at exactly 3300 elapsed seconds with a
legal stored token. -/
theorem claim_c2_witness :
    httpCount (stW.header envOk ⟨3300000000000⟩ ⟨0⟩ ⟨0⟩).2.2 = 0 ∧
    (stW.header envOk ⟨3300000000000⟩ ⟨0⟩ ⟨0⟩).2.1 = stW ∧
    (stW.header envOk ⟨3300000000000⟩ ⟨0⟩ ⟨0⟩).1 =
      .ok [("Authorization", "token T1")] := by
  have h := claim_c2 envOk stW ⟨3300000000000⟩ ⟨0⟩ ⟨0⟩ ⟨3300000000000⟩ rfl (by decide)
  exact ⟨h.1, h.2.1, h.2.2.1 (by decide)⟩

/-- C3: whenever a refresh fails — for any reason — the returned state is
exactly the prior state: stored token and fetch timestamp unchanged. -/
theorem claim_c3 (env : Env) (st : InstallationToken)
    (n1 n2 n3 : SystemTime) (e : AuthError) (st' : InstallationToken)
    (tr : List Event)
    (h : st.refresh env n1 n2 n3 = (.error e, st', tr)) :
    st'.token = st.token ∧ st'.fetch_time = st.fetch_time ∧ st' = st := by
  unfold InstallationToken.refresh at h
  repeat' (first | split at h | (dsimp only [] at h))
  all_goals simp_all

/-- C3 witness: a stale manager whose refresh fails at the signing step. -/
theorem claim_c3_witness :
    (stW.refresh envSignFail ⟨3301000000000⟩ ⟨1⟩ ⟨2⟩).2.1 = stW :=
  (claim_c3 envSignFail stW ⟨3301000000000⟩ ⟨1⟩ ⟨2⟩ (.JwtError ⟨"bad key"⟩)
    (stW.refresh envSignFail ⟨3301000000000⟩ ⟨1⟩ ⟨2⟩).2.1
    (stW.refresh envSignFail ⟨3301000000000⟩ ⟨1⟩ ⟨2⟩).2.2 rfl).2.2

/-- C4: for every parameter set and successful clock read, the constructed
JWT claims have issuer equal to the application id, issued-at equal to the
whole-second reading of now, and expiry equal to issued-at plus 60; a
clock reading before the epoch makes claim construction fail with a
`TimeError`. -/
theorem claim_c4 (params : GithubAuthParams) (now : SystemTime) :
    (∀ d, now.duration_since UNIX_EPOCH = .ok d →
      JwtClaims.new params now =
        .ok { iat := d.as_secs, exp := d.as_secs + 60, iss := params.app_id }) ∧
    (now.nanos < 0 → ∃ e, JwtClaims.new params now = .error (.TimeError e)) := by
  constructor
  · intro d hd
    unfold JwtClaims.new
    rw [hd]
  · intro hneg
    unfold JwtClaims.new SystemTime.duration_since
    rw [if_neg (by simp [UNIX_EPOCH]; omega)]
    exact ⟨_, rfl⟩

/-- C4 witness: a clock read of 1500000000.123456789 s after the epoch,
and one of 5 ns before the epoch. -/
theorem claim_c4_witness :
    JwtClaims.new paramsW ⟨1500000000123456789⟩ =
      .ok { iat := 1500000000, exp := 1500000060, iss := 1234 } ∧
    (∃ e, JwtClaims.new paramsW ⟨-5⟩ = .error (.TimeError e)) := by
  constructor
  · exact (claim_c4 paramsW ⟨1500000000123456789⟩).1 ⟨1500000000123456789⟩ rfl
  · exact (claim_c4 paramsW ⟨-5⟩).2 (by decide)

/-- C5: construction performs one full exchange to populate the initial
token and fetch timestamp; if the client build or any exchange step fails,
construction returns that error and produces no manager value. -/
theorem claim_c5 (env : Env) (params : GithubAuthParams) (n1 n2 : SystemTime) :
    (∀ client raw tr, env.buildClient params.user_agent = .ok client →
      get_installation_token env client n1 params = (.ok raw, tr) →
      InstallationToken.new env n1 n2 params =
        (.ok { client := client, token := raw.token, fetch_time := n2,
               params := params }, tr) ∧
      httpCount tr = 1) ∧
    (∀ e, env.buildClient params.user_agent = .error e →
      InstallationToken.new env n1 n2 params = (.error (.ReqwestError e), [])) ∧
    (∀ client e tr, env.buildClient params.user_agent = .ok client →
      get_installation_token env client n1 params = (.error e, tr) →
      (InstallationToken.new env n1 n2 params).1 = .error e) := by
  refine ⟨?_, ?_, ?_⟩
  · intro client raw tr hc hg
    refine ⟨?_, get_installation_token_ok_httpCount env client n1 params raw tr hg⟩
    unfold InstallationToken.new
    rw [hc]
    dsimp only []
    rw [hg]
  · intro e he
    unfold InstallationToken.new
    rw [he]
  · intro client e tr hc hg
    unfold InstallationToken.new
    rw [hc]
    dsimp only []
    rw [hg]

/-- C5 witness: a concrete successful construction, and a failing one
whose signing step fails. -/
theorem claim_c5_witness :
    InstallationToken.new envOk ⟨5⟩ ⟨6⟩ paramsW =
      (.ok { client := clientW, token := "T2", fetch_time := ⟨6⟩,
             params := paramsW },
        (get_installation_token envOk clientW ⟨5⟩ paramsW).2) ∧
    httpCount (get_installation_token envOk clientW ⟨5⟩ paramsW).2 = 1 ∧
    (InstallationToken.new envSignFail ⟨5⟩ ⟨6⟩ paramsW).1 =
      .error (.JwtError ⟨"bad key"⟩) := by
  have h1 := (claim_c5 envOk paramsW ⟨5⟩ ⟨6⟩).1 clientW ⟨"T2", 1468275250⟩
    (get_installation_token envOk clientW ⟨5⟩ paramsW).2 rfl rfl
  have h2 := (claim_c5 envSignFail paramsW ⟨5⟩ ⟨6⟩).2.2 clientW
    (.JwtError ⟨"bad key"⟩)
    (get_installation_token envSignFail clientW ⟨5⟩ paramsW).2 rfl rfl
  exact ⟨h1.1, h1.2, h2⟩

/-- C6: whenever a credential request succeeds, the returned header
collection contains the entry `Authorization: token <current token>`,
where the current token is the one stored after any refresh performed by
this call. -/
theorem claim_c6 (env : Env) (st : InstallationToken) (n1 n2 n3 : SystemTime)
    (hdrs : List (String × String)) (st' : InstallationToken) (tr : List Event)
    (h : st.header env n1 n2 n3 = (.ok hdrs, st', tr)) :
    ("Authorization", "token " ++ st'.token) ∈ hdrs := by
  unfold InstallationToken.header at h
  repeat' (first | split at h | (dsimp only [] at h))
  all_goals simp only [Prod.mk.injEq] at h
  all_goals obtain ⟨ha, hb, hc⟩ := h
  all_goals first
    | exact Except.noConfusion ha
    | (subst hb
       injection ha with ha
       subst ha
       simp)

/-- C6 witness: a stale manager refreshed to token `"T2"`. -/
theorem claim_c6_witness :
    ("Authorization",
      "token " ++ (stW.header envOk ⟨3301000000000⟩ ⟨1⟩ ⟨2⟩).2.1.token) ∈
      [("Authorization", "token T2")] :=
  claim_c6 envOk stW ⟨3301000000000⟩ ⟨1⟩ ⟨2⟩ [("Authorization", "token T2")]
    (stW.header envOk ⟨3301000000000⟩ ⟨1⟩ ⟨2⟩).2.1
    (stW.header envOk ⟨3301000000000⟩ ⟨1⟩ ⟨2⟩).2.2 rfl

/-- C7: every signing call made by an exchange attempt uses the `RS256`
algorithm and the caller-supplied private key, and a signing failure
surfaces as the `JwtError` (signing error) variant. -/
theorem claim_c7 (env : Env) (client : Client) (now : SystemTime)
    (params : GithubAuthParams) :
    (∀ hd c k,
      Event.signCall hd c k ∈ (get_installation_token env client now params).2 →
      hd.alg = Algorithm.RS256 ∧ k = params.private_key) ∧
    (∀ c e, JwtClaims.new params now = .ok c →
      env.sign { JwtHeader.default with alg := .RS256 } c params.private_key =
        .error e →
      (get_installation_token env client now params).1 = .error (.JwtError e)) := by
  constructor
  · intro hd c k hmem
    unfold get_installation_token at hmem
    repeat' (first | split at hmem | (dsimp only [] at hmem))
    all_goals simp_all
  · intro c e h1 h2
    unfold get_installation_token
    rw [h1]
    dsimp only []
    rw [h2]

/-- C7 witness: a concrete environment whose signing oracle fails. -/
theorem claim_c7_witness :
    (get_installation_token envSignFail clientW ⟨0⟩ paramsW).1 =
      .error (.JwtError ⟨"bad key"⟩) ∧
    Algorithm.RS256 = Algorithm.RS256 ∧ paramsW.private_key = [1, 2, 3] := by
  have h1 := (claim_c7 envSignFail clientW ⟨0⟩ paramsW).2
    { iat := 0, exp := 60, iss := 1234 } ⟨"bad key"⟩ rfl rfl
  have h2 := (claim_c7 envSignFail clientW ⟨0⟩ paramsW).1
    { typ := some "JWT", alg := Algorithm.RS256 }
    { iat := 0, exp := 60, iss := 1234 } [1, 2, 3] (by decide)
  exact ⟨h1, h2.1, by rw [← h2.2]⟩

/-- C8: neither `refresh` nor `header` ever changes the stored
`AuthParameters` or the client; only the token and fetch-timestamp fields
can change. -/
theorem claim_c8 (env : Env) (st : InstallationToken) (n1 n2 n3 : SystemTime) :
    (st.refresh env n1 n2 n3).2.1.params = st.params ∧
    (st.refresh env n1 n2 n3).2.1.client = st.client ∧
    (st.header env n1 n2 n3).2.1.params = st.params ∧
    (st.header env n1 n2 n3).2.1.client = st.client := by
  have hrp : (st.refresh env n1 n2 n3).2.1.params = st.params ∧
      (st.refresh env n1 n2 n3).2.1.client = st.client := by
    unfold InstallationToken.refresh
    repeat' (first | split | (dsimp only []))
    all_goals simp_all
  refine ⟨hrp.1, hrp.2, ?_, ?_⟩
  · rw [header_state_eq]
    exact hrp.1
  · rw [header_state_eq]
    exact hrp.2

/-- C9: an error from `header` does not imply unchanged state: when a
stale manager's exchange succeeds but the new token is not legal
header-value text, `header` returns the header-encoding error while the
stored token and fetch timestamp have already been replaced. -/
theorem claim_c9 (env : Env) (st : InstallationToken) (n1 n2 n3 : SystemTime)
    (d : Duration) (raw : RawInstallationToken) (tr : List Event)
    (h1 : n1.duration_since st.fetch_time = .ok d)
    (h2 : 3300 < d.as_secs)
    (h3 : get_installation_token env st.client n2 st.params = (.ok raw, tr))
    (h4 : header_value_valid ("token " ++ raw.token) = false) :
    st.header env n1 n2 n3 =
      (.error .InvalidHeaderValue,
        { st with token := raw.token, fetch_time := n3 },
        Event.infoLog "refreshing installation token" :: tr) := by
  have hr := refresh_stale_ok st env n1 n2 n3 d raw tr h1 h2 h3
  unfold InstallationToken.header
  rw [hr]
  dsimp only []
  rw [if_neg (by simp [h4])]

/-- C9 witness: a stale manager against an environment returning the token
`"T2\nX"`, whose line feed cannot appear in a header value. -/
theorem claim_c9_witness :
    stW.header envBadToken ⟨3301000000000⟩ ⟨1⟩ ⟨2⟩ =
      (.error .InvalidHeaderValue,
        { stW with token := "T2\nX", fetch_time := ⟨2⟩ },
        Event.infoLog "refreshing installation token" ::
          (get_installation_token envBadToken stW.client ⟨1⟩ stW.params).2) :=
  claim_c9 envBadToken stW ⟨3301000000000⟩ ⟨1⟩ ⟨2⟩ ⟨3301000000000⟩
    ⟨"T2\nX", 1468275250⟩
    (get_installation_token envBadToken stW.client ⟨1⟩ stW.params).2
    rfl (by decide) rfl (by decide)

/-- C10: given a successful elapsed-time read, a refresh is triggered iff
the whole-second truncation of the elapsed duration is at least 3301; in
particular an elapsed time of 3300.5 seconds — although greater than 55
minutes — does not trigger a refresh. -/
theorem claim_c10 (env : Env) (st : InstallationToken) (n1 n2 n3 : SystemTime)
    (d : Duration)
    (h1 : n1.duration_since st.fetch_time = .ok d) :
    (Event.infoLog "refreshing installation token" ∈
        (st.refresh env n1 n2 n3).2.2 ↔ 3301 ≤ d.as_secs) ∧
    (d.nanos = 3300500000000 → st.refresh env n1 n2 n3 = (.ok (), st, [])) := by
  constructor
  · constructor
    · intro hmem
      by_contra hlt
      rw [refresh_fresh st env n1 n2 n3 d h1 (by omega)] at hmem
      simp at hmem
    · intro hge
      rcases hg : get_installation_token env st.client n2 st.params with ⟨res, tr⟩
      cases res with
      | error e =>
        rw [refresh_stale_err st env n1 n2 n3 d e tr h1 (by omega) hg]
        simp
      | ok raw =>
        rw [refresh_stale_ok st env n1 n2 n3 d raw tr h1 (by omega) hg]
        simp
  · intro hn
    exact refresh_fresh st env n1 n2 n3 d h1
      (by simp [Duration.as_secs, hn])

/-- C10 witness: an elapsed time of exactly 3300.5 seconds does not
trigger a refresh. -/
theorem claim_c10_witness :
    (Event.infoLog "refreshing installation token" ∉
      (stW.refresh envOk ⟨3300500000000⟩ ⟨1⟩ ⟨2⟩).2.2) ∧
    stW.refresh envOk ⟨3300500000000⟩ ⟨1⟩ ⟨2⟩ = (.ok (), stW, []) := by
  have h := claim_c10 envOk stW ⟨3300500000000⟩ ⟨1⟩ ⟨2⟩ ⟨3300500000000⟩ rfl
  refine ⟨?_, h.2 rfl⟩
  intro hmem
  have hc := h.1.1 hmem
  simp [Duration.as_secs] at hc

end GithubAppAuth
